import Mathlib

/-!
Verification of the NEET audio conversation renderer (src/main.py) against its
natural-language specification.

The program is a thin HTTP service: it accepts a list of dialogue segments,
calls an external text-to-speech (TTS) provider once per non-empty segment,
assembles the returned clips into a single audio track (leading silence,
per-segment micro-pauses, whole-track fades), encodes the track once, persists
it under a slugged random filename and returns a URL.

Modelling conventions for the shallow embedding:
- Audio is modelled at the granularity pydub exposes: an `AudioSegment` is a
  list of integer samples, one per millisecond, so `List.length` is the
  duration in milliseconds (`AudioSegment.silent(duration=d)` has length `d`,
  `+` is concatenation, `len(seg)` is the duration).
- The external TTS provider (OpenAI) is an opaque function
  `text -> voice -> speed -> Except String (List Nat)` returning encoded bytes
  or failing; the spec itself declares it out of scope ("treated as an opaque
  function"). All renderer definitions are parameterised over it.
- The mp3 codec (pydub/ffmpeg, also an external collaborator) is likewise kept
  as parameters: `dec : List Nat -> List Int` for `AudioSegment.from_file` /
  `from_mp3` and `enc : List Int -> List Nat` for `export(format="mp3")`.
- The fades `fade_in` / `fade_out` are pydub gain envelopes: they rescale
  sample amplitudes over a window and preserve duration; they are modelled
  here as the corresponding length-preserving linear ramps.
- Python floats (the speed constants 0.95 / 1.05 / 1.0) are modelled as `Rat`;
  no arithmetic is ever performed on them, they are only selected and passed
  to the provider.
- Python string operations (`.strip()`, `.upper()`, `.lower()`, `.replace`,
  `.rstrip("/")`, slicing, `in`) are modelled by the `py*` helpers below.
- Exceptions are modelled with `Except`; the endpoint returns its HTTP
  response together with the list of files it wrote to the audio directory.
-/

/-- Python str.strip() whitespace set (ASCII part): space, tab, newline,
carriage return, vertical tab, form feed. -/
def isPySpace (c : Char) : Bool :=
  c == ' ' || c == '\t' || c == '\n' || c == '\r' || c == '\x0b' || c == '\x0c'

/-- Python str.strip(): drop leading and trailing whitespace. -/
def pyStrip (s : String) : String :=
  String.mk (((s.data.dropWhile isPySpace).reverse.dropWhile isPySpace).reverse)

/-- Python str.upper(), modelled on the ASCII range (all speaker identifiers
and table keys in the program are ASCII). -/
def pyUpper (s : String) : String :=
  String.mk (s.data.map Char.toUpper)

/-- Python str.lower(), modelled on the ASCII range. -/
def pyLower (s : String) : String :=
  String.mk (s.data.map Char.toLower)

/-- Python str.replace(" ", "-"): replace every space with a hyphen (the
pattern is a single character, so this is a character map). -/
def pyReplaceSpaceDash (s : String) : String :=
  String.mk (s.data.map (fun c => if c == ' ' then '-' else c))

/-- Python str.rstrip("/"): drop every trailing slash. -/
def pyRstripSlash (s : String) : String :=
  String.mk ((s.data.reverse.dropWhile (fun c => c == '/')).reverse)

/-- Python s[:n] on a string: take the first n characters. -/
def pyTake (n : Nat) (s : String) : String :=
  String.mk (s.data.take n)

/-- needle occurs at the start of hay (character lists). -/
def leadsWith : List Char → List Char → Bool
  | [], _ => true
  | _ :: _, [] => false
  | a :: as, b :: bs => a == b && leadsWith as bs

/-- needle occurs somewhere inside hay (character lists): the substring test
behind Python's `needle in hay`. -/
def subIn (needle : List Char) : List Char → Bool
  | [] => needle.isEmpty
  | b :: bs => leadsWith needle (b :: bs) || subIn needle bs

/-- Python `needle in hay` for strings: plain substring containment. -/
def pyContains (hay needle : String) : Bool :=
  subIn needle.data hay.data

/-- needle occurs as a contiguous substring of hay, as a proposition. -/
def SubstrIn (needle hay : String) : Prop :=
  ∃ pre post, hay.data = pre ++ needle.data ++ post

-- ---------- Data models (src/main.py lines 33-49) ----------

/-- One dialogue line: src/main.py class Segment. -/
structure Segment where
  speaker : String
  text : String
deriving DecidableEq, Repr

/-- The request body: src/main.py class RenderRequest. -/
structure RenderRequest where
  topic_id : String
  segments : List Segment
deriving DecidableEq, Repr

/-- Map speakers to OpenAI TTS voices (src/main.py VOICE_MAP), modelled as an
association list. -/
def VOICE_MAP : List (String × String) :=
  [("DR_ARJUN", "onyx"), ("RIYA", "nova")]

/-- src/main.py TTS_MODEL: the model identifier passed on every provider
call. -/
def TTS_MODEL : String := "gpt-4o-mini-tts"

-- ---------- Audio model (pydub collaborator) ----------

/-- AudioSegment.silent(duration=d): d milliseconds of zero samples. -/
def silentAudio (d : Nat) : List Int :=
  List.replicate d 0

/-- AudioSegment.fade_in(d): gain ramp over the first d milliseconds, modelled
as a linear amplitude ramp; duration is preserved. -/
def fadeInAudio (d : Nat) (xs : List Int) : List Int :=
  xs.enum.map (fun p => if p.1 < d then p.2 * (p.1 : Int) / (d : Int) else p.2)

/-- AudioSegment.fade_out(d): gain ramp over the last d milliseconds, modelled
as a linear amplitude ramp; duration is preserved. -/
def fadeOutAudio (d : Nat) (xs : List Int) : List Int :=
  let n := xs.length
  xs.enum.map (fun p =>
    if n ≤ p.1 + d then p.2 * ((n - p.1 : Nat) : Int) / (d : Int) else p.2)

/-- The type of the external TTS provider (tts_line_to_mp3_bytes,
src/main.py lines 54-68, wrapping the OpenAI client): text, voice and speed
in, encoded mp3 bytes out, or a provider failure. -/
abbrev Tts := String → String → Rat → Except String (List Nat)

/-- The type of the mp3 decoder (AudioSegment.from_file / from_mp3). -/
abbrev Mp3Dec := List Nat → List Int

/-- The type of the mp3 encoder (AudioSegment.export(format="mp3")). -/
abbrev Mp3Enc := List Int → List Nat

-- ---------- Voice / speed resolution (src/main.py lines 88-97) ----------

/-- Voice resolution: speaker = seg.speaker.upper();
voice = VOICE_MAP.get(speaker, "onyx") (src/main.py lines 88-89). -/
def resolveVoice (speaker : String) : String :=
  ((VOICE_MAP.lookup (pyUpper speaker)).getD "onyx")

/-- Speed resolution: 0.95 for DR_ARJUN, 1.05 for RIYA, 1.0 otherwise
(src/main.py lines 92-97), keyed on the uppercased speaker. -/
def resolveSpeed (speaker : String) : Rat :=
  let u := pyUpper speaker
  if u = "DR_ARJUN" then (0.95 : Rat)
  else if u = "RIYA" then (1.05 : Rat)
  else (1 : Rat)

/-- The fixed emotional keyword list (src/main.py line 111). -/
def emotional_words : List String :=
  ["honestly", "ahh", "umm", "wait", "sir", "hmm"]

/-- Pause duration after a segment whose stripped text is given: 500ms when
the lowercased text contains an emotional keyword, else 300ms
(src/main.py lines 110-115). -/
def pauseMs (text : String) : Nat :=
  if emotional_words.any (fun w => pyContains (pyLower text) w) then 500 else 300

-- ---------- Core render loop (src/main.py lines 83-117) ----------

/-- The for-loop of render_conversation_bytes: skip whitespace-only segments,
resolve voice and speed, call the provider, decode the clip and append it with
its pause onto the accumulated track. A provider failure propagates (the
Python exception aborts the loop). -/
def renderLoop (tts : Tts) (dec : Mp3Dec) : List Segment → List Int →
    Except String (List Int)
  | [], acc => .ok acc
  | seg :: rest, acc =>
    let text := pyStrip seg.text
    if text = "" then renderLoop tts dec rest acc
    else
      let voice := resolveVoice seg.speaker
      let speed := resolveSpeed seg.speaker
      match tts text voice speed with
      | .error e => .error e
      | .ok audio_bytes =>
        let clip := dec audio_bytes
        let pause := silentAudio (pauseMs text)
        renderLoop tts dec rest (acc ++ (clip ++ pause))

/-- The final_audio value of render_conversation_bytes just before export:
the loop started from 500ms of leading silence, then fade_in(1200) and
fade_out(1500) (src/main.py lines 80-120). -/
def finalTrack (tts : Tts) (dec : Mp3Dec) (segs : List Segment) :
    Except String (List Int) :=
  (renderLoop tts dec segs (silentAudio 500)).map
    (fun a => fadeOutAudio 1500 (fadeInAudio 1200 a))

/-- render_conversation_bytes (src/main.py lines 73-125): build the final
track and export it once to mp3 bytes. -/
def render_conversation_bytes (tts : Tts) (dec : Mp3Dec) (enc : Mp3Enc)
    (req : RenderRequest) : Except String (List Nat) :=
  (finalTrack tts dec req.segments).map enc

/-- The sequence of (text, voice, speed) calls the render loop issues to the
provider, in order; a failing call is the last one issued. Derived from the
same loop (src/main.py lines 83-100). -/
def ttsCalls (tts : Tts) : List Segment → List (String × String × Rat)
  | [] => []
  | seg :: rest =>
    let text := pyStrip seg.text
    if text = "" then ttsCalls tts rest
    else
      let voice := resolveVoice seg.speaker
      let speed := resolveSpeed seg.speaker
      match tts text voice speed with
      | .error _ => [(text, voice, speed)]
      | .ok _ => (text, voice, speed) :: ttsCalls tts rest

-- ---------- API endpoint (src/main.py lines 130-166) ----------

/-- An HTTPException raised by the endpoint. -/
structure HttpError where
  status : Nat
  detail : String
deriving DecidableEq, Repr

/-- The JSON success body of the endpoint (src/main.py lines 161-166). -/
structure RenderResponse where
  status : String
  audio_url : String
  file_name : String
  duration_ms : Option Nat
deriving DecidableEq, Repr

/-- The /render-conversation endpoint (src/main.py lines 130-166),
parameterised over the provider, the codec, the random uuid4().hex draw and
the request's base URL. Returns the HTTP outcome together with the list of
(filename, bytes) files written to the audio directory. -/
def render_conversation (tts : Tts) (dec : Mp3Dec) (enc : Mp3Enc)
    (uuidHex : String) (base_url : String) (req : RenderRequest) :
    Except HttpError RenderResponse × List (String × List Nat) :=
  if req.segments = [] then
    (.error ⟨400, "No segments provided"⟩, [])
  else
    match render_conversation_bytes tts dec enc req with
    | .error e => (.error ⟨500, "Render failed: " ++ e⟩, [])
    | .ok audio_bytes =>
      let safe_topic := pyReplaceSpaceDash (pyLower req.topic_id)
      let unique := pyTake 8 uuidHex
      let filename := safe_topic ++ "_" ++ unique ++ ".mp3"
      let base_url' := pyRstripSlash base_url
      let audio_url := base_url' ++ "/audio/" ++ filename
      let duration_ms := some (dec audio_bytes).length
      (.ok ⟨"ok", audio_url, filename, duration_ms⟩, [(filename, audio_bytes)])

/-- The provider calls the endpoint performs: none when it rejects the empty
segment list with 400, otherwise those of the render loop. -/
def endpointCalls (tts : Tts) (req : RenderRequest) :
    List (String × String × Rat) :=
  if req.segments = [] then [] else ttsCalls tts req.segments

-- ---------- Spec-side closed form (for the refinement claim C5) ----------

/-- Written from the spec's words (section 4.3, "Decoded assembly"): the
concatenation, in segment order, of each non-empty (after trimming) segment's
decoded clip followed by its pause, failing at the first provider failure.
This is the spec-side description to be compared with the render loop. -/
def clipsAndPauses (tts : Tts) (dec : Mp3Dec) : List Segment →
    Except String (List Int)
  | [] => .ok []
  | seg :: rest =>
    let text := pyStrip seg.text
    if text = "" then clipsAndPauses tts dec rest
    else
      match tts text (resolveVoice seg.speaker) (resolveSpeed seg.speaker) with
      | .error e => .error e
      | .ok b =>
        match clipsAndPauses tts dec rest with
        | .error e => .error e
        | .ok tail => .ok ((dec b ++ silentAudio (pauseMs text)) ++ tail)

-- ---------- Concrete fixtures used to instantiate theorems ----------

/-- A decoder fixture: reads each byte as one sample. -/
def decW : Mp3Dec := fun bs => bs.map (fun b => (b : Int))

/-- An encoder fixture: writes each sample's absolute value as one byte. -/
def encW : Mp3Enc := fun xs => xs.map Int.natAbs

/-- A provider fixture that always succeeds with a fixed one-byte clip. -/
def ttsOkW : Tts := fun _ _ _ => .ok [5]

/-- A provider fixture that always fails. -/
def ttsDownW : Tts := fun _ _ _ => .error "boom"

/-- A 32-character lowercase-hex uuid4().hex fixture. -/
def uuid32W : String := "0123456789abcdef0123456789abcdef"

/-- A lowercase hexadecimal digit, the alphabet of uuid4().hex. -/
def isLowerHexDigit (c : Char) : Bool :=
  c.isDigit || (97 ≤ c.toNat && c.toNat ≤ 102)

/-- A request fixture whose single segment is whitespace-only. -/
def reqW : RenderRequest := ⟨"Cell Division", [⟨"RIYA", " "⟩]⟩

/-- The bytes the renderer produces for a request with no usable segment. -/
def bytesW : List Nat :=
  encW (fadeOutAudio 1500 (fadeInAudio 1200 (silentAudio 500)))

/-- The filename the endpoint derives for reqW under uuid32W. -/
def fileNameW : String := "cell-division_01234567.mp3"

/-- The response the endpoint returns for reqW under uuid32W. -/
def respW : RenderResponse :=
  ⟨"ok", "http://localhost:8000/audio/cell-division_01234567.mp3", fileNameW,
    some (decW bytesW).length⟩

-- ---------- Helper lemmas ----------

/-- leadsWith decides "needle is an initial run of hay". -/
theorem leadsWith_iff : ∀ (n h : List Char),
    leadsWith n h = true ↔ ∃ t, h = n ++ t
  | [], h => by simp [leadsWith]
  | a :: as, [] => by simp [leadsWith]
  | a :: as, b :: bs => by
    show (a == b && leadsWith as bs) = true ↔ _
    rw [Bool.and_eq_true, beq_iff_eq, leadsWith_iff as bs]
    constructor
    · rintro ⟨rfl, t, rfl⟩
      exact ⟨t, rfl⟩
    · rintro ⟨t, ht⟩
      injection ht with h1 h2
      exact ⟨h1.symm, t, h2⟩

/-- subIn decides substring containment on character lists. -/
theorem subIn_iff : ∀ (n h : List Char),
    subIn n h = true ↔ ∃ p t, h = p ++ n ++ t
  | n, [] => by
    constructor
    · intro hh
      have hn : n = [] := by simpa [subIn] using hh
      exact ⟨[], [], by simp [hn]⟩
    · rintro ⟨p, t, hpt⟩
      have h1 : p ++ n ++ t = [] := hpt.symm
      simp only [List.append_eq_nil] at h1
      simp [subIn, h1.1.2]
  | n, b :: bs => by
    show (leadsWith n (b :: bs) || subIn n bs) = true ↔ _
    rw [Bool.or_eq_true, leadsWith_iff, subIn_iff n bs]
    constructor
    · rintro (⟨t, ht⟩ | ⟨p, t, ht⟩)
      · exact ⟨[], t, by simpa using ht⟩
      · exact ⟨b :: p, t, by simp [ht]⟩
    · rintro ⟨p, t, hpt⟩
      cases p with
      | nil => exact Or.inl ⟨t, by simpa using hpt⟩
      | cons c cs =>
        injection hpt with h1 h2
        exact Or.inr ⟨cs, t, h2⟩

/-- Python's substring test agrees with the mathematical notion. -/
theorem pyContains_iff (hay needle : String) :
    pyContains hay needle = true ↔ SubstrIn needle hay := by
  simpa [pyContains, SubstrIn] using subIn_iff needle.data hay.data

/-- The pause is 500ms exactly when the lowercased text contains one of the
emotional keywords as a substring. -/
theorem pauseMs_eq_500_iff (text : String) :
    pauseMs text = 500 ↔ ∃ w ∈ emotional_words, SubstrIn w (pyLower text) := by
  have hiff : (emotional_words.any (fun w => pyContains (pyLower text) w) = true)
      ↔ ∃ w ∈ emotional_words, SubstrIn w (pyLower text) := by
    rw [List.any_eq_true]
    constructor
    · rintro ⟨w, hw, hc⟩
      exact ⟨w, hw, (pyContains_iff _ _).mp hc⟩
    · rintro ⟨w, hw, hs⟩
      exact ⟨w, hw, (pyContains_iff _ _).mpr hs⟩
  rw [← hiff]
  by_cases h : emotional_words.any (fun w => pyContains (pyLower text) w) = true
  · simp [pauseMs, h]
  · simp [pauseMs, h]

/-- The pause is only ever 500ms or 300ms. -/
theorem pauseMs_eq_500_or_300 (text : String) :
    pauseMs text = 500 ∨ pauseMs text = 300 := by
  unfold pauseMs
  split
  · exact Or.inl rfl
  · exact Or.inr rfl

/-- fade_in preserves duration. -/
theorem fadeInAudio_length (d : Nat) (xs : List Int) :
    (fadeInAudio d xs).length = xs.length := by
  simp [fadeInAudio, List.enum_length]

/-- fade_out preserves duration. -/
theorem fadeOutAudio_length (d : Nat) (xs : List Int) :
    (fadeOutAudio d xs).length = xs.length := by
  simp [fadeOutAudio, List.enum_length]

/-- The render loop is the spec-side closed form appended onto the
accumulator. -/
theorem renderLoop_eq (tts : Tts) (dec : Mp3Dec) :
    ∀ (segs : List Segment) (acc : List Int),
      renderLoop tts dec segs acc =
        (clipsAndPauses tts dec segs).map (fun body => acc ++ body)
  | [], acc => by simp [renderLoop, clipsAndPauses, Except.map]
  | seg :: rest, acc => by
    by_cases h : pyStrip seg.text = ""
    · simp only [renderLoop, clipsAndPauses, h, if_true, eq_self_iff_true]
      exact renderLoop_eq tts dec rest acc
    · cases htts : tts (pyStrip seg.text) (resolveVoice seg.speaker)
        (resolveSpeed seg.speaker) with
      | error e =>
        simp [renderLoop, clipsAndPauses, h, htts, Except.map]
      | ok b =>
        cases hcp : clipsAndPauses tts dec rest with
        | error e =>
          have hrec := renderLoop_eq tts dec rest
            (acc ++ (dec b ++ silentAudio (pauseMs (pyStrip seg.text))))
          simp [renderLoop, clipsAndPauses, h, htts, hcp, Except.map] at hrec ⊢
          exact hrec
        | ok tail =>
          have hrec := renderLoop_eq tts dec rest
            (acc ++ (dec b ++ silentAudio (pauseMs (pyStrip seg.text))))
          simp [renderLoop, clipsAndPauses, h, htts, hcp, Except.map,
            List.append_assoc] at hrec ⊢
          exact hrec

/-- The spec-side closed form distributes over list append. -/
theorem clipsAndPauses_append (tts : Tts) (dec : Mp3Dec) :
    ∀ (xs ys : List Segment),
      clipsAndPauses tts dec (xs ++ ys) =
        match clipsAndPauses tts dec xs with
        | .error e => .error e
        | .ok a => (clipsAndPauses tts dec ys).map (fun b => a ++ b)
  | [], ys => by
    cases hcp : clipsAndPauses tts dec ys with
    | error e => simp [clipsAndPauses, hcp, Except.map]
    | ok b => simp [clipsAndPauses, hcp, Except.map]
  | x :: xs, ys => by
    have hrec := clipsAndPauses_append tts dec xs ys
    by_cases h : pyStrip x.text = ""
    · simpa [clipsAndPauses, h] using hrec
    · cases htts : tts (pyStrip x.text) (resolveVoice x.speaker)
        (resolveSpeed x.speaker) with
      | error e => simp [clipsAndPauses, h, htts]
      | ok b =>
        cases hxs : clipsAndPauses tts dec xs with
        | error e =>
          simp [clipsAndPauses, h, htts, hxs] at hrec ⊢
          simp [hrec]
        | ok a =>
          cases hys : clipsAndPauses tts dec ys with
          | error e =>
            simp [clipsAndPauses, h, htts, hxs, hys, Except.map] at hrec ⊢
            simp [hrec]
          | ok c =>
            simp [clipsAndPauses, h, htts, hxs, hys, Except.map] at hrec ⊢
            simp [hrec, List.append_assoc]

/-- When the render loop fails, the failure is that of the last provider call
it issued. -/
theorem renderLoop_error_last (tts : Tts) (dec : Mp3Dec) :
    ∀ (segs : List Segment) (acc : List Int) (e : String),
      renderLoop tts dec segs acc = .error e →
      ∃ c, (ttsCalls tts segs).getLast? = some c ∧ tts c.1 c.2.1 c.2.2 = .error e
  | [], acc, e => by simp [renderLoop]
  | seg :: rest, acc, e => by
    intro hloop
    by_cases h : pyStrip seg.text = ""
    · simp only [renderLoop, h, if_true, eq_self_iff_true] at hloop
      simpa [ttsCalls, h] using renderLoop_error_last tts dec rest acc e hloop
    · cases htts : tts (pyStrip seg.text) (resolveVoice seg.speaker)
        (resolveSpeed seg.speaker) with
      | error e' =>
        simp only [renderLoop, h, htts, if_neg] at hloop
        have he : e' = e := by
          simpa [renderLoop, h, htts] using hloop
        exact ⟨(pyStrip seg.text, resolveVoice seg.speaker, resolveSpeed seg.speaker),
          by simp [ttsCalls, h, htts], by simp [htts, he]⟩
      | ok b =>
        have hloop' : renderLoop tts dec rest
            (acc ++ (dec b ++ silentAudio (pauseMs (pyStrip seg.text)))) = .error e := by
          simpa [renderLoop, h, htts] using hloop
        rcases renderLoop_error_last tts dec rest _ e hloop' with ⟨c, hc, he⟩
        refine ⟨c, ?_, he⟩
        cases hcalls : ttsCalls tts rest with
        | nil => rw [hcalls] at hc; simp at hc
        | cons y ys =>
          rw [hcalls] at hc
          simp [ttsCalls, h, htts, hcalls, List.getLast?_cons_cons, hc]

/-- When every segment is whitespace-only the loop returns its accumulator
untouched and issues no provider call. -/
theorem renderLoop_skip_all (tts : Tts) (dec : Mp3Dec) :
    ∀ (segs : List Segment) (acc : List Int),
      (∀ seg ∈ segs, pyStrip seg.text = "") →
      renderLoop tts dec segs acc = .ok acc ∧ ttsCalls tts segs = []
  | [], acc, _ => by simp [renderLoop, ttsCalls]
  | seg :: rest, acc, h => by
    have hseg : pyStrip seg.text = "" := h seg (by simp)
    have hrest := renderLoop_skip_all tts dec rest acc
      (fun s hs => h s (List.mem_cons_of_mem _ hs))
    simpa [renderLoop, ttsCalls, hseg] using hrest

-- ---------- Claim theorems ----------

/-- C2: for every request with an empty segment list, the endpoint returns
HTTP 400 "No segments provided", writes no file to the output directory and
performs zero synthesis-provider calls (src/main.py lines 130-133). -/
theorem empty_segments_client_error (tts : Tts) (dec : Mp3Dec) (enc : Mp3Enc)
    (uuidHex base_url : String) (req : RenderRequest)
    (h : req.segments = []) :
    render_conversation tts dec enc uuidHex base_url req =
        (.error ⟨400, "No segments provided"⟩, []) ∧
      endpointCalls tts req = [] := by
  simp [render_conversation, endpointCalls, h]

/-- Witness for C2 at a concrete empty-segment request. -/
theorem empty_segments_client_error_witness :
    render_conversation ttsOkW decW encW uuid32W "http://localhost:8000/"
        ⟨"mitosis", []⟩ = (.error ⟨400, "No segments provided"⟩, []) ∧
      endpointCalls ttsOkW ⟨"mitosis", []⟩ = [] :=
  empty_segments_client_error ttsOkW decW encW uuid32W "http://localhost:8000/"
    ⟨"mitosis", []⟩ rfl

/-- C3: the voice/speed resolver is total (it is a Lean function, so it never
fails) and case-insensitive: any speaker whose uppercasing is a key of the
static table gets that table's voice, and any speaker whose uppercasing is no
key of the table gets the documented default voice "onyx" and default speed
1.0 (src/main.py lines 88-97). -/
theorem resolver_total_case_insensitive (s : String) :
    (∀ p ∈ VOICE_MAP, pyUpper s = p.1 → resolveVoice s = p.2) ∧
    ((∀ p ∈ VOICE_MAP, pyUpper s ≠ p.1) →
      resolveVoice s = "onyx" ∧ resolveSpeed s = 1) := by
  constructor
  · intro p hp hup
    fin_cases hp <;> simp_all [resolveVoice, VOICE_MAP, List.lookup]
  · intro hmiss
    have h1 : pyUpper s ≠ "DR_ARJUN" :=
      hmiss ("DR_ARJUN", "onyx") (by simp [VOICE_MAP])
    have h2 : pyUpper s ≠ "RIYA" := hmiss ("RIYA", "nova") (by simp [VOICE_MAP])
    have hb1 : (pyUpper s == "DR_ARJUN") = false := beq_eq_false_iff_ne.mpr h1
    have hb2 : (pyUpper s == "RIYA") = false := beq_eq_false_iff_ne.mpr h2
    constructor
    · simp [resolveVoice, VOICE_MAP, List.lookup, hb1, hb2]
    · simp [resolveSpeed, h1, h2]

/-- Witness for C3: a table hit up to case, and a miss falling back to the
default voice and speed. -/
theorem resolver_total_case_insensitive_witness :
    resolveVoice "riya" = "nova" ∧ resolveVoice "narrator" = "onyx" ∧
      resolveSpeed "narrator" = 1 :=
  ⟨(resolver_total_case_insensitive "riya").1 ("RIYA", "nova")
      (by simp [VOICE_MAP]) (by decide),
    ((resolver_total_case_insensitive "narrator").2 (by decide)).1,
    ((resolver_total_case_insensitive "narrator").2 (by decide)).2⟩

/-- C5: for every request, the rendered bytes are exactly the spec's closed
form: a 500ms leading silence, followed by each non-empty segment's decoded
clip interleaved with its pause in segment order, with fade-in(1200) and
fade-out(1500) applied to the full track after all segments are appended, and
the result encoded exactly once, outermost, at the very end
(src/main.py lines 80-125). -/
theorem render_assembly_closed_form (tts : Tts) (dec : Mp3Dec) (enc : Mp3Enc)
    (req : RenderRequest) :
    render_conversation_bytes tts dec enc req =
      (clipsAndPauses tts dec req.segments).map
        (fun body =>
          enc (fadeOutAudio 1500 (fadeInAudio 1200 (silentAudio 500 ++ body)))) := by
  unfold render_conversation_bytes finalTrack
  rw [renderLoop_eq]
  cases clipsAndPauses tts dec req.segments <;> simp [Except.map]

/-- C9: the emotional-keyword test is plain substring containment on the
lowercased text, not word-boundary matching; in particular "waiting" contains
the keyword "wait" inside a longer word and selects the 500ms pause
(src/main.py lines 111-115). -/
theorem keyword_substring_no_word_boundary :
    (∀ text : String,
        pauseMs text = 500 ↔ ∃ w ∈ emotional_words, SubstrIn w (pyLower text)) ∧
      pauseMs "They are waiting outside" = 500 ∧
      "wait" ∈ emotional_words ∧
      SubstrIn "wait" (pyLower "They are waiting outside") :=
  ⟨fun text => pauseMs_eq_500_iff text, by decide, by decide,
    (pyContains_iff _ _).mp (by decide)⟩

/-- C10: every speed ever passed to the synthesis provider is a function of
the segment's uppercased speaker alone, fixed at 0.95 for "DR_ARJUN", 1.05
for "RIYA" and 1.0 for every other speaker; the request carries no other
speed input (src/main.py lines 88-100). -/
theorem speed_fixed_per_speaker (tts : Tts) :
    ∀ (segs : List Segment) (c : String × String × Rat),
      c ∈ ttsCalls tts segs →
      ∃ seg ∈ segs, pyStrip seg.text ≠ "" ∧
        c.2.2 = (if pyUpper seg.speaker = "DR_ARJUN" then (0.95 : Rat)
          else if pyUpper seg.speaker = "RIYA" then (1.05 : Rat) else 1)
  | [], c => by simp [ttsCalls]
  | seg :: rest, c => by
    intro hc
    by_cases h : pyStrip seg.text = ""
    · simp [ttsCalls, h] at hc
      rcases speed_fixed_per_speaker tts rest c hc with ⟨s, hs, hprop⟩
      exact ⟨s, List.mem_cons_of_mem _ hs, hprop⟩
    · cases htts : tts (pyStrip seg.text) (resolveVoice seg.speaker)
        (resolveSpeed seg.speaker) with
      | error e =>
        simp [ttsCalls, h, htts] at hc
        refine ⟨seg, List.mem_cons_self _ _, h, ?_⟩
        subst hc
        simp [resolveSpeed]
      | ok b =>
        simp [ttsCalls, h, htts] at hc
        rcases hc with hc | hc
        · refine ⟨seg, List.mem_cons_self _ _, h, ?_⟩
          subst hc
          simp [resolveSpeed]
        · rcases speed_fixed_per_speaker tts rest c hc with ⟨s, hs, hprop⟩
          exact ⟨s, List.mem_cons_of_mem _ hs, hprop⟩

/-- Witness for C10: a concrete call issued for a lowercase "dr_arjun"
speaker carries speed 0.95. -/
theorem speed_fixed_per_speaker_witness :
    ∃ seg ∈ [Segment.mk "dr_arjun" "Hello class"],
      pyStrip seg.text ≠ "" ∧
        (("Hello class", "onyx", (0.95 : Rat)) : String × String × Rat).2.2 =
          (if pyUpper seg.speaker = "DR_ARJUN" then (0.95 : Rat)
            else if pyUpper seg.speaker = "RIYA" then (1.05 : Rat) else 1) :=
  speed_fixed_per_speaker ttsOkW [Segment.mk "dr_arjun" "Hello class"]
    ("Hello class", "onyx", (0.95 : Rat))
    (by
      rw [show ttsCalls ttsOkW [Segment.mk "dr_arjun" "Hello class"] =
        [("Hello class", "onyx", (0.95 : Rat))] from rfl]
      exact List.mem_singleton.mpr rfl)

/-- Counterexample for C1 as stated: for a request whose only segment has
empty text, the endpoint does NOT fail — it succeeds (and would persist a
near-silent file) while issuing zero provider calls. -/
theorem all_empty_render_error_counterexample :
    (render_conversation ttsDownW decW encW uuid32W "http://localhost:8000/"
        ⟨"mitosis", [⟨"DR_ARJUN", ""⟩]⟩).1.isOk = true ∧
      ttsCalls ttsDownW [⟨"DR_ARJUN", ""⟩] = [] :=
  ⟨rfl, rfl⟩

/-- C1 (amended): for every request whose segments all have empty or
whitespace-only text, the renderer performs zero synthesis-provider calls and
succeeds, returning the encoding of the 500ms leading silence with the fades
applied; no error is raised (src/main.py lines 73-125). -/
theorem all_empty_render_silent_ok (tts : Tts) (dec : Mp3Dec) (enc : Mp3Enc)
    (req : RenderRequest)
    (h : ∀ seg ∈ req.segments, pyStrip seg.text = "") :
    render_conversation_bytes tts dec enc req =
        .ok (enc (fadeOutAudio 1500 (fadeInAudio 1200 (silentAudio 500)))) ∧
      ttsCalls tts req.segments = [] := by
  have hs := renderLoop_skip_all tts dec req.segments (silentAudio 500) h
  refine ⟨?_, hs.2⟩
  simp [render_conversation_bytes, finalTrack, hs.1, Except.map]

/-- Witness for the amended C1 at a concrete whitespace-only request. -/
theorem all_empty_render_silent_ok_witness :
    render_conversation_bytes ttsDownW decW encW
        ⟨"photosynthesis", [⟨"RIYA", "  "⟩]⟩ =
        .ok (encW (fadeOutAudio 1500 (fadeInAudio 1200 (silentAudio 500)))) ∧
      ttsCalls ttsDownW [⟨"RIYA", "  "⟩] = [] :=
  all_empty_render_silent_ok ttsDownW decW encW
    ⟨"photosynthesis", [⟨"RIYA", "  "⟩]⟩ (by decide)

/-- C4: for a non-empty (after trimming) segment, the loop appends after the
segment's decoded clip a silence of pauseMs milliseconds, and that pause is
500ms exactly when the lowercased text contains one of the keywords
{honestly, ahh, umm, wait, sir, hmm} as a substring, 300ms exactly otherwise
(src/main.py lines 110-117). -/
theorem pause_duration_after_clip (tts : Tts) (dec : Mp3Dec) (seg : Segment)
    (rest : List Segment) (acc : List Int) (b : List Nat)
    (h : pyStrip seg.text ≠ "")
    (htts : tts (pyStrip seg.text) (resolveVoice seg.speaker)
      (resolveSpeed seg.speaker) = .ok b) :
    renderLoop tts dec (seg :: rest) acc =
        renderLoop tts dec rest
          (acc ++ (dec b ++ silentAudio (pauseMs (pyStrip seg.text)))) ∧
      (pauseMs (pyStrip seg.text) = 500 ↔
        ∃ w ∈ emotional_words, SubstrIn w (pyLower (pyStrip seg.text))) ∧
      (pauseMs (pyStrip seg.text) = 300 ↔
        ¬ ∃ w ∈ emotional_words, SubstrIn w (pyLower (pyStrip seg.text))) := by
  refine ⟨?_, pauseMs_eq_500_iff _, ?_⟩
  · simp [renderLoop, h, htts]
  · rw [← pauseMs_eq_500_iff]
    rcases pauseMs_eq_500_or_300 (pyStrip seg.text) with h5 | h3
    · simp [h5]
    · simp [h3]

/-- Witness for C4 at a concrete segment containing the keywords "wait" and
"sir". -/
theorem pause_duration_after_clip_witness :
    renderLoop ttsOkW decW [⟨"RIYA", "Wait sir"⟩] [] =
        renderLoop ttsOkW decW []
          (([] : List Int) ++
            (decW [5] ++ silentAudio (pauseMs (pyStrip "Wait sir")))) ∧
      (pauseMs (pyStrip "Wait sir") = 500 ↔
        ∃ w ∈ emotional_words, SubstrIn w (pyLower (pyStrip "Wait sir"))) ∧
      (pauseMs (pyStrip "Wait sir") = 300 ↔
        ¬ ∃ w ∈ emotional_words, SubstrIn w (pyLower (pyStrip "Wait sir"))) :=
  pause_duration_after_clip ttsOkW decW ⟨"RIYA", "Wait sir"⟩ [] [] [5]
    (by decide) rfl

/-- C6: when the render fails (which only a provider call's failure can
cause), the endpoint returns HTTP 500 wrapping the underlying message, writes
no file, and the failing call is the last one issued — nothing is retried
after it (src/main.py lines 135-148). -/
theorem provider_failure_aborts (tts : Tts) (dec : Mp3Dec) (enc : Mp3Enc)
    (uuidHex base_url : String) (req : RenderRequest) (e : String)
    (h : render_conversation_bytes tts dec enc req = .error e) :
    render_conversation tts dec enc uuidHex base_url req =
        (.error ⟨500, "Render failed: " ++ e⟩, []) ∧
      ∃ c, (ttsCalls tts req.segments).getLast? = some c ∧
        tts c.1 c.2.1 c.2.2 = .error e := by
  have hloop : renderLoop tts dec req.segments (silentAudio 500) = .error e := by
    unfold render_conversation_bytes finalTrack at h
    cases hr : renderLoop tts dec req.segments (silentAudio 500) with
    | error e' =>
      rw [hr] at h
      simp [Except.map] at h
      rw [h]
    | ok a =>
      rw [hr] at h
      simp [Except.map] at h
  have hne : req.segments ≠ [] := by
    intro hnil
    rw [hnil] at hloop
    simp [renderLoop] at hloop
  refine ⟨?_, renderLoop_error_last tts dec req.segments _ e hloop⟩
  simp [render_conversation, hne, h]

/-- Witness for C6 at a concrete request whose single provider call fails. -/
theorem provider_failure_aborts_witness :
    render_conversation ttsDownW decW encW uuid32W "http://localhost:8000/"
        ⟨"mitosis", [⟨"RIYA", "Hello"⟩]⟩ =
        (.error ⟨500, "Render failed: boom"⟩, []) ∧
      ∃ c, (ttsCalls ttsDownW [⟨"RIYA", "Hello"⟩]).getLast? = some c ∧
        ttsDownW c.1 c.2.1 c.2.2 = .error "boom" :=
  provider_failure_aborts ttsDownW decW encW uuid32W "http://localhost:8000/"
    ⟨"mitosis", [⟨"RIYA", "Hello"⟩]⟩ "boom" rfl

/-- C7: on success the persisted file's name is the topic identifier
lowercased with spaces replaced by hyphens, an underscore, the first 8
characters of uuid4().hex (8 lowercase hex digits) and ".mp3"; the returned
URL is the base address (trailing slashes stripped) joined with the static
path of exactly that one written file (src/main.py lines 141-152). -/
theorem filename_slug_and_url (tts : Tts) (dec : Mp3Dec) (enc : Mp3Enc)
    (uuidHex base_url : String) (req : RenderRequest)
    (r : RenderResponse) (files : List (String × List Nat))
    (h : render_conversation tts dec enc uuidHex base_url req = (.ok r, files))
    (hlen : uuidHex.data.length = 32)
    (hhex : ∀ c ∈ uuidHex.data, isLowerHexDigit c = true) :
    r.file_name =
        pyReplaceSpaceDash (pyLower req.topic_id) ++ "_" ++
          pyTake 8 uuidHex ++ ".mp3" ∧
      (pyTake 8 uuidHex).data.length = 8 ∧
      (∀ c ∈ (pyTake 8 uuidHex).data, isLowerHexDigit c = true) ∧
      r.audio_url = pyRstripSlash base_url ++ "/audio/" ++ r.file_name ∧
      (∃ bs, files = [(r.file_name, bs)]) := by
  by_cases hne : req.segments = []
  · simp [render_conversation, hne] at h
  · cases hrb : render_conversation_bytes tts dec enc req with
    | error e => simp [render_conversation, hne, hrb] at h
    | ok bytes =>
      unfold render_conversation at h
      rw [if_neg hne] at h
      simp only [hrb] at h
      injection h with h1 h2
      injection h1 with h1
      subst h1
      subst h2
      refine ⟨rfl, ?_, ?_, rfl, ⟨bytes, rfl⟩⟩
      · simp [pyTake, List.length_take, hlen]
      · intro c hc
        exact hhex c (List.mem_of_mem_take (by simpa [pyTake] using hc))

/-- Witness for C7 at a concrete successful request. -/
theorem filename_slug_and_url_witness :
    respW.file_name =
        pyReplaceSpaceDash (pyLower reqW.topic_id) ++ "_" ++
          pyTake 8 uuid32W ++ ".mp3" ∧
      (pyTake 8 uuid32W).data.length = 8 ∧
      (∀ c ∈ (pyTake 8 uuid32W).data, isLowerHexDigit c = true) ∧
      respW.audio_url =
        pyRstripSlash "http://localhost:8000/" ++ "/audio/" ++ respW.file_name ∧
      (∃ bs, [(fileNameW, bytesW)] = [(respW.file_name, bs)]) :=
  filename_slug_and_url ttsDownW decW encW uuid32W "http://localhost:8000/"
    reqW respW [(fileNameW, bytesW)] rfl (by decide) (by decide)

/-- C8: assembled duration is monotonically non-decreasing in the segment
list: with the provider and codec fixed, extending the request's segments can
only lengthen (never shorten) the final faded track
(src/main.py lines 83-120). -/
theorem duration_monotone_append (tts : Tts) (dec : Mp3Dec)
    (segs extra : List Segment) (t t' : List Int)
    (h : finalTrack tts dec segs = .ok t)
    (h' : finalTrack tts dec (segs ++ extra) = .ok t') :
    t.length ≤ t'.length := by
  unfold finalTrack at h h'
  rw [renderLoop_eq] at h h'
  cases hcp : clipsAndPauses tts dec segs with
  | error e =>
    rw [hcp] at h
    simp [Except.map] at h
  | ok a =>
    rw [hcp] at h
    simp only [Except.map, Except.ok.injEq] at h
    have happ := clipsAndPauses_append tts dec segs extra
    cases hcpe : clipsAndPauses tts dec extra with
    | error e =>
      simp only [hcp, hcpe, Except.map] at happ
      rw [happ] at h'
      simp [Except.map] at h'
    | ok b =>
      simp only [hcp, hcpe, Except.map] at happ
      rw [happ] at h'
      simp only [Except.map, Except.ok.injEq] at h'
      rw [← h, ← h']
      simp [fadeOutAudio_length, fadeInAudio_length, List.length_append]

/-- Witness for C8: appending one non-empty segment to the empty request does
not shorten the final track. -/
theorem duration_monotone_append_witness :
    (fadeOutAudio 1500 (fadeInAudio 1200 (silentAudio 500))).length ≤
      (fadeOutAudio 1500 (fadeInAudio 1200 (silentAudio 500 ++
        (decW [5] ++
          silentAudio (pauseMs (pyStrip "And one more thing")))))).length :=
  duration_monotone_append ttsOkW decW [] [⟨"RIYA", "And one more thing"⟩]
    _ _ rfl rfl
